import Mathlib

set_option linter.unusedVariables false
set_option linter.unreachableTactic false
set_option linter.unnecessarySeqFocus false
set_option linter.unusedTactic false
set_option linter.unnecessarySimpa false

/-! Shallow embedding of the per-connection HTTP/1.1 server core of the
repository, `src/thevoid/connection.cpp` (template class `connection<T>`).

External collaborators (socket, logger, HTTP parser, handler, handler
factory, stock replies) are black boxes per the specification.  Their
observable interactions are recorded as events in a trace, and their
responses (parse outcomes, handler return values, thrown exceptions) are
supplied by an oracle that is consumed one entry per call.  State mutation
follows the source line by line; the one `size_t` subtraction that could
underflow is modelled with an explicit wrap at 2 ^ 64. -/

/-- The four independent flags of the `m_state` bitmask.  Modelled from the
spec: the numeric flag values live in `connection_p.hpp`, which is not among
the sources; per spec section 4.1 they are independent bits and
`processing_request` is the state in which none of them is set, so the
bitmask is rendered as four booleans. -/
structure BState where
  read_headers : Bool
  read_data : Bool
  request_processed : Bool
  waiting_for_first_data : Bool
deriving DecidableEq, Repr

/-- The value `m_state = processing_request` : no flag set (spec section 4.1). -/
def processing_request : BState := ⟨false, false, false, false⟩

/-- Completion callback stored in a queued `buffer_info`: either a handler
supplied callback (identified by a number) or the bound
`connection::close_impl` used by `send_error`. -/
inductive Cb
| user (id : Nat)
| close_conn
deriving DecidableEq, Repr

/-- One element of `m_outgoing` (`buffer_info` in the source): a list of
byte ranges plus an optional completion callback.  A byte range
(`boost::asio::const_buffer`) is modelled as the list of bytes it denotes;
advancing the buffer by `n` bytes is `List.drop n`. -/
structure BufferInfo where
  buffer : List (List Nat)
  handler : Option Cb
deriving DecidableEq, Repr

/-- Response object (`swarm::http_response`): all the connection code reads
from it is its status code, and all it mutates is the Keep-Alive header. -/
structure HttpResponse where
  code : Nat
  keep_alive_header : Bool
deriving DecidableEq, Repr

/-- Modelled from the spec: `stock_replies::stock_reply` lives in
`stockreplies_p.hpp`, which is not among the sources; per spec section 6 it
is a pure function from a status to a canned response with that status. -/
def stock_reply (status : Nat) : HttpResponse := ⟨status, false⟩

/-- Modelled from the spec: `stock_replies::to_buffers` lives in
`stockreplies_p.hpp`, which is not among the sources; per spec section 6 it
formats status line and headers of the response into byte ranges, followed
by the body range.  The exact header bytes are irrelevant to the connection
code, so the formatted header part is rendered as one abstract range. -/
def to_buffers (rep : HttpResponse) (content : List Nat) : List (List Nat) :=
  [[rep.code], content]

/-- Result type of `request_parser::parse` (a `boost::tribool`). -/
inductive Tribool
| t
| f
| indeterminate
deriving DecidableEq, Repr

/-- One oracle entry for a call to the external incremental parser: its
tribool result, how many input bytes it consumed (`new_begin - begin`), and
the fields the connection reads from the parsed request on success,
including whether `m_server->factory(m_request)` finds a handler factory. -/
structure ParseStep where
  result : Tribool
  consumed : Nat
  req_content_length : Option Nat
  req_keep_alive : Bool
  req_method : String
  req_url : String
  factory : Bool
deriving DecidableEq, Repr

/-- One oracle entry for a call to the handler `on_data`: whether the call
threw, and otherwise the number of bytes the handler reports consumed. -/
structure DataStep where
  threw : Bool
  consumed : Nat
deriving DecidableEq, Repr

/-- Oracle: the responses of the external parser and handler, one entry per
call, consumed in call order. -/
structure Oracle where
  parses : List ParseStep
  on_datas : List DataStep
  on_headers_throws : List Bool
  on_close_throws : List Bool
deriving DecidableEq, Repr

/-- Default parser response used when the oracle stream is exhausted (the
theorems always supply enough entries): need more data, nothing consumed. -/
def default_parse : ParseStep := ⟨Tribool.indeterminate, 0, none, false, "", "", false⟩

def pop_parse (o : Oracle) : ParseStep × Oracle :=
  match o.parses with
  | [] => (default_parse, o)
  | p :: ps => (p, { o with parses := ps })

def pop_data (o : Oracle) : DataStep × Oracle :=
  match o.on_datas with
  | [] => (⟨false, 0⟩, o)
  | d :: ds => (d, { o with on_datas := ds })

def pop_header_throw (o : Oracle) : Bool × Oracle :=
  match o.on_headers_throws with
  | [] => (false, o)
  | b :: bs => (b, { o with on_headers_throws := bs })

def pop_close_throw (o : Oracle) : Bool × Oracle :=
  match o.on_close_throws with
  | [] => (false, o)
  | b :: bs => (b, { o with on_close_throws := bs })

/-- Observable events of one connection: socket operations, log lines,
server counter updates, and calls across the handler boundary.
`silent_consume` marks the `read_data` path of `process_data` taking the
offered slice as processed without a handler call (`data_from_body` zero or
no handler attached, lines 496-499), so that byte accounting can be stated
over traces; it corresponds to no external interaction. -/
inductive Ev
| access_log (status received sent : Nat)
| error_log (site : String)
| extra_bytes_log
| shutdown
| async_read_posted
| write_submitted (ranges : List (List Nat))
| inc_active
| dec_active
| dec_connections
| init_call
| on_headers_call
| parse_call (consumed : Nat)
| on_data_call (offered consumed : Nat)
| silent_consume (n : Nat)
| on_close_call (err : Bool)
| cb_invoked (cb : Cb) (err : Bool)
| propagated (site : String)
deriving DecidableEq, Repr

/-- The connection state: the fields of `connection<T>` that the modelled
member functions read or write.  Pointer pair `m_unprocessed_begin` /
`m_unprocessed_end` is modelled as the byte slice it delimits.  The server
side fields used by the connection (`safe_mode`, whether `m_server` is set)
are snapshotted here; the atomic server counters are traced as events. -/
structure Conn where
  m_state : BState
  m_content_length : Nat
  m_sending : Bool
  m_keep_alive : Bool
  m_at_read : Bool
  m_has_handler : Bool
  m_access_status : Nat
  m_access_received : Nat
  m_access_sent : Nat
  m_access_method : String
  m_access_url : String
  m_unprocessed : List Nat
  m_outgoing : List BufferInfo
  safe_mode : Bool
  has_server : Bool
deriving DecidableEq, Repr

/-- Width of `size_t`. -/
def size_w : Nat := 2 ^ 64

/-- Subtraction of `size_t` values with the C++ unsigned wrap (operands below 2^64). -/
def sub_size (a b : Nat) : Nat := (size_w + a - b) % size_w

/-- Model of `connection<T>::print_access_log` (lines 388-408): returns without
emitting anything while `waiting_for_first_data` is still set, otherwise
emits exactly one access-log line carrying the current status and byte
counters. -/
def print_access_log (c : Conn) : List Ev :=
  if c.m_state.waiting_for_first_data then []
  else [Ev.access_log c.m_access_status c.m_access_received c.m_access_sent]

/-- Model of `connection<T>::async_read` (lines 533-546): refuses to overlap reads
(`m_at_read` guard), clears the unprocessed cursors, posts one socket
read. -/
def async_read (c : Conn) : Conn × List Ev :=
  if c.m_at_read then (c, [])
  else ({ c with m_at_read := true, m_unprocessed := [] }, [Ev.async_read_posted])

/-- The recovery branch a `SAFE_CALL` site selects: `SAFE_SEND_NONE`
(swallow and continue) or `SAFE_SEND_ERROR` (shut the socket down,
decrement the active-connections counter, drop the handler, return). -/
inductive Recovery
| rec_none
| rec_send_error
deriving DecidableEq, Repr

/-- The `SAFE_CALL` macro (lines 36-65) applied to a handler call that has
already been evaluated up to its outcome `threw`.  Returns the state, the
events emitted by the macro itself, and whether the enclosing member
function returns early (either via `SAFE_SEND_ERROR`, or because with
`safe_mode` unset the exception propagates and kills the process). -/
def safe_call_result (c : Conn) (threw : Bool) (site : String) (rec : Recovery) :
    Conn × List Ev × Bool :=
  if c.safe_mode then
    if threw then
      let c1 := { c with m_access_status := 598 }
      let evs := [Ev.error_log site] ++ print_access_log c1
      match rec with
      | Recovery.rec_none => (c1, evs, false)
      | Recovery.rec_send_error =>
        ({ c1 with m_has_handler := false }, evs ++ [Ev.shutdown, Ev.dec_active], true)
    else (c, [], false)
  else
    if threw then (c, [Ev.propagated site], true) else (c, [], false)

/-- The `buffers_count` bound of class `buffers_array` (line 272). -/
def buffers_count : Nat := 32

/-- One step of the `buffers_array` constructor loop (lines 282-286):
append the range only while fewer than `buffers_count` ranges are held. -/
def push_range (acc : List (List Nat)) (r : List Nat) : List (List Nat) :=
  if acc.length < buffers_count then acc ++ [r] else acc

/-- The `buffers_array` constructor (lines 278-287): walk the queued items
in order and, within each, their ranges in order, collecting ranges while
fewer than `buffers_count` are held. -/
def buffers_array (q : List BufferInfo) : List (List Nat) :=
  q.foldl (fun acc info => info.buffer.foldl push_range acc) []

/-- The inner range loop of `connection<T>::write_finished` (lines
235-244): walk the front item ranges; a range wholly covered by the
remaining written bytes is consumed, a partially covered one is advanced in
place and the remaining count drops to zero.  Returns the surviving ranges,
the remaining written bytes, and whether every range was consumed
(`it == buffers.end()`). -/
def consume_ranges : List (List Nat) → Nat → List (List Nat) × Nat × Bool
  | [], bytes => ([], bytes, true)
  | r :: rs, bytes =>
    if r.length ≤ bytes then consume_ranges rs (bytes - r.length)
    else (r.drop bytes :: rs, 0, false)

/-- The drain loop of `connection<T>::write_finished` (lines 219-257).
While written bytes remain: an empty queue logs the extra-bytes error and
exits; otherwise the front item ranges are advanced, a fully consumed item
is popped and its completion callback invoked (outside the queue lock) with
the success code, a partially consumed item keeps its advanced tail.
Returns the remaining queue, the unaccounted bytes, and the events. -/
def write_finished_drain : List BufferInfo → Nat → List BufferInfo × Nat × List Ev
  | q, 0 => (q, 0, [])
  | [], bytes => ([], bytes, [Ev.extra_bytes_log])
  | info :: rest, bytes =>
    let res := consume_ranges info.buffer bytes
    if res.2.2 then
      let cb_evs := match info.handler with
        | some cb => [Ev.cb_invoked cb false]
        | none => []
      let next := write_finished_drain rest res.2.1
      (next.1, next.2.1, cb_evs ++ next.2.2)
    else
      ({ info with buffer := res.1 } :: rest, res.2.1, [])

/-- Model of `connection<T>::send_nolock` (lines 304-312): submit one gather write
built by `buffers_array` over the current queue. -/
def send_nolock (c : Conn) : Conn × List Ev :=
  (c, [Ev.write_submitted (buffers_array c.m_outgoing)])

/-- Model of `connection<T>::send_impl` (lines 181-192): append the item to the
queue; if no write is in flight, raise `m_sending` and submit one. -/
def send_impl (c : Conn) (info : BufferInfo) : Conn × List Ev :=
  let c1 := { c with m_outgoing := c.m_outgoing ++ [info] }
  if c1.m_sending then (c1, [])
  else send_nolock { c1 with m_sending := true }

/-- Model of `connection<T>::send_headers` (lines 122-142): record the response code
as the access status, inject the Keep-Alive header when the connection is
keep-alive, enqueue formatted headers plus body as one item. -/
def send_headers (c : Conn) (rep : HttpResponse) (content : List Nat) (cb : Option Cb) :
    Conn × List Ev :=
  let c1 := { c with m_access_status := rep.code }
  let rep1 := if c1.m_keep_alive then { rep with keep_alive_header := true } else rep
  send_impl c1 ⟨to_buffers rep1 content, cb⟩

/-- Model of `connection<T>::send_data` (lines 144-154): enqueue one item carrying
just the body range. -/
def send_data (c : Conn) (content : List Nat) (cb : Option Cb) : Conn × List Ev :=
  send_impl c ⟨[content], cb⟩

/-- Model of `connection<T>::send_error` (lines 548-555): send the stock reply for
the status with an empty body, with `close_impl` bound as the completion
callback. -/
def send_error (c : Conn) (status : Nat) : Conn × List Ev :=
  send_headers c (stock_reply status) [] (some Cb.close_conn)

/-- Continuation used by the process functions below: the recursive
re-entry into `process_data` at the remaining fuel. -/
abbrev ProcessK := Oracle → Conn → List Nat → Oracle × Conn × List Ev

/-- Body of `connection<T>::process_next` (lines 361-386), parameterized by
the re-entry into `process_data`: emit the access log for the finished
request, reset the state to `read_headers | waiting_for_first_data` and all
access fields, reset the parser (the oracle stream simply continues), then
feed any leftover buffered bytes to `process_data` or post a read. -/
def process_next_k (recur : ProcessK) (o : Oracle) (c : Conn) :
    Oracle × Conn × List Ev :=
  let evs0 := print_access_log c
  let c := { c with
    m_state := ⟨true, false, false, true⟩,
    m_access_method := "", m_access_url := "",
    m_access_status := 0, m_access_received := 0, m_access_sent := 0 }
  if c.m_unprocessed ≠ [] then
    let r := recur o c c.m_unprocessed
    (r.1, r.2.1, evs0 ++ r.2.2)
  else
    let r := async_read c
    (o, r.1, evs0 ++ r.2)

/-- Continuation of the `read_data` branch of `process_data` after the
processed size is known (lines 501-529), parameterized by the re-entry into
`process_data`: account the processed bytes against `m_content_length` (a
`size_t` subtraction) and into `m_access_received`; a short consume parks
the remainder in the unprocessed cursors and issues no read; remaining
content posts a read; otherwise `read_data` is cleared, the tail past the
processed bytes is parked, the handler (if any) gets `on_close` with no
error under `SAFE_CALL` with `SAFE_SEND_ERROR` recovery, and if
`request_processed` is set the next request is started. -/
def process_data_after_k (recur : ProcessK) (o : Oracle) (c : Conn) (input : List Nat)
    (data_from_body processed : Nat) : Oracle × Conn × List Ev :=
  let c := { c with m_content_length := sub_size c.m_content_length processed,
                    m_access_received := c.m_access_received + processed }
  if data_from_body ≠ processed then
    (o, { c with m_unprocessed := input.drop processed }, [])
  else if c.m_content_length > 0 then
    let r := async_read c
    (o, r.1, r.2)
  else
    let c := { c with m_state := { c.m_state with read_data := false },
                      m_unprocessed := input.drop processed }
    if c.m_has_handler then
      let ct := pop_close_throw o
      let o := ct.2
      let evs0 := [Ev.on_close_call false]
      let scr := safe_call_result c ct.1 "connection::process_data -> on_close"
        Recovery.rec_send_error
      if scr.2.2 then (o, scr.1, evs0 ++ scr.2.1)
      else
        let c := scr.1
        if c.m_state.request_processed then
          let r := process_next_k recur o c
          (r.1, r.2.1, evs0 ++ scr.2.1 ++ r.2.2)
        else (o, c, evs0 ++ scr.2.1)
    else
      if c.m_state.request_processed then
        let r := process_next_k recur o c
        (r.1, r.2.1, r.2.2)
      else (o, c, [])

/-- Model of `connection<T>::process_data` (lines 435-531), with a fuel bound on the
recursion depth (each recursive descent consumes one fuel unit; at zero the
run stops unchanged, and every theorem supplies enough fuel).

`read_headers` branch: clear `waiting_for_first_data` on the first byte,
feed the parser, account the consumed header bytes.  A malformed request
forces `keep_alive` off, clears the cursors, jumps to `processing_request`
and sends the stock 400.  A complete parse records method, url, content
length and keep-alive from the request, looks up the factory; with a
factory the active counter is incremented and the handler created,
initialized and given the headers under `SAFE_CALL` with `SAFE_SEND_ERROR`
recovery; without one the stock 404 is sent.  Then `read_headers` is
swapped for `read_data` and the remaining bytes are fed recursively.  An
indeterminate parse posts another read.

`read_data` branch: offer `min(m_content_length, available)` bytes; when
some are offered and a handler exists, `on_data` is called under
`SAFE_CALL` with `SAFE_SEND_ERROR` recovery, its return becoming the
processed size (on a throw the early return fires before any accounting)
and the event recording the acknowledged count; otherwise the offered size
is taken silently; the continuation is `process_data_after_k`. -/
def process_data : Nat → Oracle → Conn → List Nat → Oracle × Conn × List Ev
  | 0, o, c, _ => (o, c, [])
  | Nat.succ f, o, c, input =>
    if c.m_state.read_headers then
      let c := if c.m_state.waiting_for_first_data then
          { c with m_state := { c.m_state with waiting_for_first_data := false } } else c
      let pr := pop_parse o
      let p := pr.1
      let o := pr.2
      let consumed := min p.consumed input.length
      let evs0 := [Ev.parse_call consumed]
      let c := { c with m_access_received := c.m_access_received + consumed }
      match p.result with
      | Tribool.f =>
        let c := { c with m_keep_alive := false, m_unprocessed := [],
                          m_state := processing_request }
        let r := send_error c 400
        (o, r.1, evs0 ++ r.2)
      | Tribool.t =>
        let c := { c with m_access_method := p.req_method, m_access_url := p.req_url,
                          m_content_length := p.req_content_length.getD 0,
                          m_keep_alive := p.req_keep_alive }
        if p.factory then
          let c := { c with m_has_handler := true }
          let ht := pop_header_throw o
          let o := ht.2
          let evs1 := [Ev.inc_active, Ev.init_call, Ev.on_headers_call]
          let scr := safe_call_result c ht.1 "connection::process_data -> on_headers"
            Recovery.rec_send_error
          if scr.2.2 then (o, scr.1, evs0 ++ evs1 ++ scr.2.1)
          else
            let c := { scr.1 with
              m_state := { scr.1.m_state with read_headers := false, read_data := true } }
            let r := process_data f o c (input.drop consumed)
            (r.1, r.2.1, evs0 ++ evs1 ++ scr.2.1 ++ r.2.2)
        else
          let r := send_error c 404
          let c := { r.1 with
            m_state := { r.1.m_state with read_headers := false, read_data := true } }
          let r2 := process_data f o c (input.drop consumed)
          (r2.1, r2.2.1, evs0 ++ r.2 ++ r2.2.2)
      | Tribool.indeterminate =>
        let r := async_read c
        (o, r.1, evs0 ++ r.2)
    else if c.m_state.read_data then
      let data_from_body := min c.m_content_length input.length
      if data_from_body ≠ 0 ∧ c.m_has_handler then
        let dr := pop_data o
        let d := dr.1
        let o := dr.2
        if d.threw then
          let scr := safe_call_result c true "connection::process_data -> on_data"
            Recovery.rec_send_error
          (o, scr.1, [Ev.on_data_call data_from_body 0] ++ scr.2.1)
        else
          let r := process_data_after_k (process_data f) o c input data_from_body d.consumed
          (r.1, r.2.1, [Ev.on_data_call data_from_body d.consumed] ++ r.2.2)
      else
        let r := process_data_after_k (process_data f) o c input data_from_body data_from_body
        (r.1, r.2.1, [Ev.silent_consume data_from_body] ++ r.2.2)
    else (o, c, [])

/-- Model of `connection<T>::process_next` (lines 361-386) at a given fuel. -/
def process_next (fuel : Nat) (o : Oracle) (c : Conn) : Oracle × Conn × List Ev :=
  process_next_k (process_data fuel) o c

/-- Model of `connection<T>::close_impl` (lines 314-359): decrement the active
counter if a handler is present and drop the handler.  On an error: keep
status 499 if already set, otherwise mark 599, emit the access log, shut
the socket down.  Without an error: if the request body is not yet fully
received (`m_state != processing_request`) set `request_processed` and keep
draining (re-deliver any buffered tail or post a read); else if the
connection is not keep-alive emit the access log and shut down; else start
the next request. -/
def close_impl (fuel : Nat) (o : Oracle) (c : Conn) (err : Bool) :
    Oracle × Conn × List Ev :=
  let dec_evs := if c.m_has_handler then [Ev.dec_active] else []
  let c := { c with m_has_handler := false }
  if err then
    let c := if c.m_access_status ≠ 499 then { c with m_access_status := 599 } else c
    (o, c, dec_evs ++ print_access_log c ++ [Ev.shutdown])
  else if c.m_state ≠ processing_request then
    let c := { c with m_state := { c.m_state with request_processed := true } }
    if c.m_unprocessed ≠ [] then
      let r := process_data fuel o c c.m_unprocessed
      (r.1, r.2.1, dec_evs ++ r.2.2)
    else
      let r := async_read c
      (o, r.1, dec_evs ++ r.2)
  else if ¬ c.m_keep_alive then
    (o, c, dec_evs ++ print_access_log c ++ [Ev.shutdown])
  else
    let r := process_next fuel o c
    (r.1, r.2.1, dec_evs ++ r.2.2)

/-- Model of `connection<T>::want_more_impl` (lines 170-179): re-deliver the parked
bytes if any exist, otherwise post a read. -/
def want_more_impl (fuel : Nat) (o : Oracle) (c : Conn) : Oracle × Conn × List Ev :=
  if c.m_unprocessed ≠ [] then process_data fuel o c c.m_unprocessed
  else
    let r := async_read c
    (o, r.1, r.2)

/-- Model of `connection<T>::handle_read` (lines 410-433): clear `m_at_read`.  On a
read error: status 499, emit the access log, then if a handler is present
deliver `on_close` with the error under `SAFE_CALL` with `SAFE_SEND_NONE`
recovery, decrement the active counter and drop the handler.  On success
feed the received bytes to `process_data`. -/
def handle_read (fuel : Nat) (o : Oracle) (c : Conn) (err : Bool) (bytes : List Nat) :
    Oracle × Conn × List Ev :=
  let c := { c with m_at_read := false }
  if err then
    let c := { c with m_access_status := 499 }
    let evs := print_access_log c
    if c.m_has_handler then
      let ct := pop_close_throw o
      let o := ct.2
      let call_evs := [Ev.on_close_call true]
      let scr := safe_call_result c ct.1 "connection::handle_read -> on_close"
        Recovery.rec_none
      if scr.2.2 then (o, scr.1, evs ++ call_evs ++ scr.2.1)
      else
        (o, { scr.1 with m_has_handler := false },
          evs ++ call_evs ++ scr.2.1 ++ [Ev.dec_active])
    else
      (o, { c with m_has_handler := false }, evs)
  else
    process_data fuel o c bytes

/-- Model of `connection<T>::write_finished` (lines 194-266): account the written
bytes into `m_access_sent`.  On a write error: move the queue out and
invoke every pending completion callback with the error, set status 499,
deliver `on_close` with the error to the handler if present under
`SAFE_CALL` with `SAFE_SEND_NONE` recovery, then run `close_impl` with the
error.  On success: run the drain loop; if the queue is then empty lower
`m_sending`, otherwise submit the next gather write. -/
def write_finished (fuel : Nat) (o : Oracle) (c : Conn) (err : Bool) (bytes : Nat) :
    Oracle × Conn × List Ev :=
  let c := { c with m_access_sent := c.m_access_sent + bytes }
  if err then
    let flush_evs := c.m_outgoing.filterMap
      (fun info => info.handler.map (fun cb => Ev.cb_invoked cb true))
    let c := { c with m_outgoing := [] }
    let c := { c with m_access_status := 499 }
    if c.m_has_handler then
      let ct := pop_close_throw o
      let o := ct.2
      let call_evs := [Ev.on_close_call true]
      let scr := safe_call_result c ct.1 "connection::write_finished -> on_close"
        Recovery.rec_none
      if scr.2.2 then (o, scr.1, flush_evs ++ call_evs ++ scr.2.1)
      else
        let r := close_impl fuel o scr.1 true
        (r.1, r.2.1, flush_evs ++ call_evs ++ scr.2.1 ++ r.2.2)
    else
      let r := close_impl fuel o c true
      (r.1, r.2.1, flush_evs ++ r.2.2)
  else
    let dres := write_finished_drain c.m_outgoing bytes
    let c := { c with m_outgoing := dres.1 }
    if c.m_outgoing = [] then
      (o, { c with m_sending := false }, dres.2.2)
    else
      let r := send_nolock c
      (o, r.1, dres.2.2 ++ r.2)

/-- Model of `connection<T>::~connection` (lines 88-102): decrement the connections
counter when the server reference is set; if a handler is still attached,
set status 597, emit the access log and synthesize `on_close` with no error
under `SAFE_CALL` with `SAFE_SEND_NONE` recovery.  Note: no decrement of
the active-connections counter happens here. -/
def connection_destructor (o : Oracle) (c : Conn) : Oracle × Conn × List Ev :=
  let evs0 := if c.has_server then [Ev.dec_connections] else []
  if c.m_has_handler then
    let c := { c with m_access_status := 597 }
    let evs1 := print_access_log c
    let ct := pop_close_throw o
    let o := ct.2
    let call_evs := [Ev.on_close_call false]
    let scr := safe_call_result c ct.1 "connection::~connection -> on_close"
      Recovery.rec_none
    (o, scr.1, evs0 ++ evs1 ++ call_evs ++ scr.2.1)
  else (o, c, evs0)

/-- Recognizer for access-log lines in a trace. -/
def is_access_log : Ev → Bool
  | Ev.access_log _ _ _ => true
  | _ => false

/-- Number of access-log lines in a trace. -/
def log_count (evs : List Ev) : Nat := evs.countP is_access_log

def is_dec_active : Ev → Bool
  | Ev.dec_active => true
  | _ => false

/-- Number of active-connections-counter decrements in a trace. -/
def dec_count (evs : List Ev) : Nat := evs.countP is_dec_active

def is_inc_active : Ev → Bool
  | Ev.inc_active => true
  | _ => false

/-- Number of active-connections-counter increments in a trace. -/
def inc_count (evs : List Ev) : Nat := evs.countP is_inc_active

/-- Header bytes the parser reported consumed, summed over a trace. -/
def ev_parse_bytes : Ev → Nat
  | Ev.parse_call n => n
  | _ => 0

def header_bytes (evs : List Ev) : Nat := (evs.map ev_parse_bytes).sum

/-- Body bytes acknowledged (returned as consumed) by the handler. -/
def ev_ack_bytes : Ev → Nat
  | Ev.on_data_call _ n => n
  | _ => 0

def body_acked (evs : List Ev) : Nat := (evs.map ev_ack_bytes).sum

/-- Body bytes the connection counted as processed: handler-acknowledged
bytes plus bytes silently taken on the handler-free path. -/
def ev_counted_bytes : Ev → Nat
  | Ev.on_data_call _ n => n
  | Ev.silent_consume n => n
  | _ => 0

def body_counted (evs : List Ev) : Nat := (evs.map ev_counted_bytes).sum

lemma foldl_push_range (l : List (List Nat)) :
    ∀ acc, List.foldl push_range acc l = acc ++ l.take (buffers_count - acc.length) := by
  induction l with
  | nil => intro acc; simp
  | cons r rs ih =>
    intro acc
    by_cases h : acc.length < buffers_count
    · rw [List.foldl_cons, show push_range acc r = acc ++ [r] from by simp [push_range, h],
        ih]
      have h2 : buffers_count - acc.length = (buffers_count - (acc ++ [r]).length) + 1 := by
        simp only [List.length_append, List.length_cons, List.length_nil]
        omega
      rw [h2, List.take_succ_cons, List.append_assoc]
      simp
    · rw [List.foldl_cons, show push_range acc r = acc from by simp [push_range, h], ih]
      have h1 : buffers_count - acc.length = 0 := by omega
      rw [h1]
      simp [h1]

lemma buffers_array_foldl (q : List BufferInfo) :
    ∀ acc, q.foldl (fun acc info => info.buffer.foldl push_range acc) acc =
      acc ++ ((q.map BufferInfo.buffer).flatten).take (buffers_count - acc.length) := by
  induction q with
  | nil => intro acc; simp
  | cons i rest ih =>
    intro acc
    rw [List.foldl_cons, foldl_push_range, ih]
    rw [List.map_cons, List.flatten_cons, List.append_assoc]
    have hlen : buffers_count - (acc ++ List.take (buffers_count - acc.length) i.buffer).length
        = (buffers_count - acc.length) - i.buffer.length := by
      simp only [List.length_append, List.length_take]
      omega
    rw [hlen, List.take_append_eq_append_take]

/-- Claim C9: the gather write submitted by `send_nolock` carries exactly
the ranges collected by `buffers_array`, and those are precisely the first
`buffers_count` (= 32) byte ranges of the outbound queue, flattened front
to back in enqueue order.  The cap is thus on the number of ranges per
write only: the bytes inside the collected ranges are not truncated, and
bytes beyond the cap stay queued for later writes. -/
theorem C9_gather_write_range_cap :
    (∀ q : List BufferInfo,
        buffers_array q = ((q.map BufferInfo.buffer).flatten).take buffers_count ∧
        (buffers_array q).length ≤ buffers_count) ∧
    (∀ c : Conn, send_nolock c = (c, [Ev.write_submitted (buffers_array c.m_outgoing)])) := by
  constructor
  · intro q
    have h := buffers_array_foldl q []
    constructor
    · simpa [buffers_array] using h
    · have h2 : buffers_array q = ((q.map BufferInfo.buffer).flatten).take buffers_count := by
        simpa [buffers_array] using h
      rw [h2]
      simpa using List.length_take_le buffers_count ((q.map BufferInfo.buffer).flatten)
  · intro c
    rfl

lemma consume_ranges_cases (rs : List (List Nat)) :
    ∀ bytes, (consume_ranges rs bytes).2.2 = true ∨ (consume_ranges rs bytes).2.1 = 0 := by
  induction rs with
  | nil => intro bytes; left; rfl
  | cons r rest ih =>
    intro bytes
    by_cases h : r.length ≤ bytes
    · simpa [consume_ranges, h] using ih (bytes - r.length)
    · right
      simp [consume_ranges, h]

/-- Claim C10: the drain loop of `write_finished` (modelled by the
structurally recursive `write_finished_drain`, whose acceptance by the
termination checker renders the loop finite) always exits in one of the
claimed ways: either the remaining written-bytes count has been driven to
zero (a partially consumed range was advanced in place, or the bytes ran
out exactly at an item boundary), or the bytes exceeded everything queued,
in which case the queue is exhausted and the extra-bytes error line was
logged instead of looping forever.  Fully consumed items are popped with
their completion callbacks invoked, as encoded in the definition. -/
theorem C10_drain_loop_exits :
    ∀ (q : List BufferInfo) (bytes : Nat),
      (write_finished_drain q bytes).2.1 = 0 ∨
      ((write_finished_drain q bytes).1 = [] ∧
        Ev.extra_bytes_log ∈ (write_finished_drain q bytes).2.2) := by
  intro q
  induction q with
  | nil =>
    intro bytes
    cases bytes with
    | zero => left; rfl
    | succ b =>
      right
      constructor
      · rfl
      · simp [write_finished_drain]
  | cons info rest ih =>
    intro bytes
    cases bytes with
    | zero => left; rfl
    | succ b =>
      rcases consume_ranges_cases info.buffer (b + 1) with hfull | hzero
      · have hr := ih (consume_ranges info.buffer (b + 1)).2.1
        rcases hr with h0 | ⟨hq, hm⟩
        · left
          simp [write_finished_drain, hfull, h0]
        · right
          constructor
          · simp [write_finished_drain, hfull, hq]
          · simp [write_finished_drain, hfull]
            right
            exact hm
      · by_cases hfull : (consume_ranges info.buffer (b + 1)).2.2 = true
        · have hr := ih (consume_ranges info.buffer (b + 1)).2.1
          rcases hr with h0 | ⟨hq, hm⟩
          · left
            simp [write_finished_drain, hfull, h0]
          · right
            constructor
            · simp [write_finished_drain, hfull, hq]
            · simp [write_finished_drain, hfull]
              right
              exact hm
        · left
          simp only [Bool.not_eq_true] at hfull
          simp [write_finished_drain, hfull, hzero]

/-- Oracle with no scripted external responses (no external call occurs, or
only calls whose default — no throw — is intended). -/
def empty_oracle : Oracle := ⟨[], [], [], []⟩

/-- A freshly accepted, idle connection: initial state
`read_headers | waiting_for_first_data`, nothing received or sent. -/
def idle_conn : Conn :=
  { m_state := ⟨true, false, false, true⟩, m_content_length := 0,
    m_sending := false, m_keep_alive := false, m_at_read := false, m_has_handler := false,
    m_access_status := 0, m_access_received := 0, m_access_sent := 0,
    m_access_method := "", m_access_url := "", m_unprocessed := [], m_outgoing := [],
    safe_mode := false, has_server := true }

/-- A connection in the middle of a request body: headers (30 bytes)
parsed, handler attached and answered with a 200, 5 body bytes still
outstanding, one socket read posted, not keep-alive. -/
def conn_mid_body : Conn :=
  { m_state := ⟨false, true, false, false⟩, m_content_length := 5,
    m_sending := false, m_keep_alive := false, m_at_read := true, m_has_handler := true,
    m_access_status := 200, m_access_received := 30, m_access_sent := 20,
    m_access_method := "GET", m_access_url := "/x", m_unprocessed := [], m_outgoing := [],
    safe_mode := false, has_server := true }

/-- Claim C8 (amended): no access-log line is ever emitted while the state
still contains `waiting_for_first_data` — every log-emitting path (read
error, `close_impl` with an error, destruction, and `print_access_log`
itself) emits zero lines then, so an idle keep-alive connection closed with
nothing sent logs nothing; and each `print_access_log` call made past that
flag emits exactly one line.  (The per-request "exactly one line" of the
original claim fails: several error paths can each reach
`print_access_log` for the same request, see the counterexample.) -/
theorem C8_no_log_while_waiting :
    ∀ (fuel : Nat) (o : Oracle) (c : Conn) (bytes : List Nat),
      (c.m_state.waiting_for_first_data = true →
        log_count (handle_read fuel o c true bytes).2.2 = 0 ∧
        log_count (close_impl fuel o c true).2.2 = 0 ∧
        log_count (connection_destructor o c).2.2 = 0) ∧
      (c.m_state.waiting_for_first_data = false →
        log_count (print_access_log c) = 1) := by
  intro fuel o c bytes
  constructor
  · intro h
    refine ⟨?_, ?_, ?_⟩
    · simp [handle_read, print_access_log, safe_call_result, log_count, h, is_access_log]
      split_ifs <;> simp [is_access_log]
    · simp [close_impl, print_access_log, safe_call_result, log_count, h, is_access_log]
      split_ifs <;> simp [is_access_log, h]
    · simp [connection_destructor, print_access_log, safe_call_result, log_count, h,
        is_access_log]
      split_ifs <;> simp [is_access_log]
  · intro h
    simp [print_access_log, log_count, h, is_access_log]

/-- Witness for C8: on an idle connection a peer-close (read error) logs
nothing; past the first byte one `print_access_log` call logs one line. -/
theorem C8_no_log_while_waiting_witness :
    log_count (handle_read 1 empty_oracle idle_conn true []).2.2 = 0 ∧
    log_count (print_access_log conn_mid_body) = 1 :=
  ⟨((C8_no_log_while_waiting 1 empty_oracle idle_conn []).1 (by decide)).1,
   (C8_no_log_while_waiting 1 empty_oracle conn_mid_body []).2 (by decide)⟩

/-- Counterexample to claim C8 as stated ("exactly one access-log line is
emitted per request that progressed past WAITING_FOR_FIRST_DATA"): one
request, mid body, whose handler reports `close` with an error (the posted
`close_impl` prints a 599 line and shuts down), after which the still
outstanding socket read completes with an error (`handle_read` prints a
second line, now 499).  Two access-log lines are emitted although the state
never returns to a fresh request (both steps stay in the same request, as
the unchanged `m_state` shows). -/
theorem C8_two_logs_for_one_request :
    log_count ((close_impl 1 empty_oracle conn_mid_body true).2.2 ++
      (handle_read 1 (close_impl 1 empty_oracle conn_mid_body true).1
        (close_impl 1 empty_oracle conn_mid_body true).2.1 true []).2.2) = 2 ∧
    (close_impl 1 empty_oracle conn_mid_body true).2.1.m_state = conn_mid_body.m_state ∧
    (handle_read 1 (close_impl 1 empty_oracle conn_mid_body true).1
        (close_impl 1 empty_oracle conn_mid_body true).2.1 true []).2.1.m_state =
      conn_mid_body.m_state := by
  decide

/-- Oracle for a backpressure run: the handler acknowledges only 2 of the
offered bytes. -/
def bp_oracle : Oracle := ⟨[], [⟨false, 2⟩], [], []⟩

/-- Claim C5: when the handler consumes fewer bytes than offered in
`read_data` state, `process_data` parks the unconsumed remainder in the
unprocessed cursors and returns at once — the result carries no
`async_read_posted` event, no state change beyond the byte accounting, and
the parked slice `input.drop consumed`; and `want_more_impl` re-delivers
exactly the parked bytes to `process_data` when any exist, otherwise posts
one new read. -/
theorem C5_backpressure :
    (∀ (fuel : Nat) (o : Oracle) (c : Conn) (input : List Nat) (d : DataStep) (o2 : Oracle),
      c.m_state.read_headers = false →
      c.m_state.read_data = true →
      c.m_has_handler = true →
      pop_data o = (d, o2) →
      d.threw = false →
      d.consumed < min c.m_content_length input.length →
      process_data (fuel + 1) o c input =
        (o2, { c with m_content_length := sub_size c.m_content_length d.consumed,
                      m_access_received := c.m_access_received + d.consumed,
                      m_unprocessed := input.drop d.consumed },
         [Ev.on_data_call (min c.m_content_length input.length) d.consumed])) ∧
    (∀ (fuel : Nat) (o : Oracle) (c : Conn),
      c.m_unprocessed ≠ [] →
      want_more_impl fuel o c = process_data fuel o c c.m_unprocessed) ∧
    (∀ (fuel : Nat) (o : Oracle) (c : Conn),
      c.m_unprocessed = [] → c.m_at_read = false →
      want_more_impl fuel o c = (o, { c with m_at_read := true, m_unprocessed := [] },
        [Ev.async_read_posted])) := by
  refine ⟨?_, ?_, ?_⟩
  · intro fuel o c input d o2 h1 h2 h3 h4 h5 h6
    have hdfb : ¬ (min c.m_content_length input.length = 0) := by omega
    have hne : ¬ (min c.m_content_length input.length = d.consumed) := by omega
    simp [process_data, process_data_after_k, h1, h2, h3, h4, h5, hdfb, hne]
  · intro fuel o c h
    simp [want_more_impl, h]
  · intro fuel o c h1 h2
    simp [want_more_impl, async_read, h1, h2]

/-- Witness for C5: `conn_mid_body` offered 5 bytes, the handler takes 2,
and the remaining 3 bytes are parked with no read posted. -/
theorem C5_backpressure_witness :
    2 < min conn_mid_body.m_content_length (List.range 5).length ∧
    process_data 1 bp_oracle conn_mid_body (List.range 5) =
      (empty_oracle,
       { conn_mid_body with m_content_length := sub_size conn_mid_body.m_content_length 2,
                            m_access_received := conn_mid_body.m_access_received + 2,
                            m_unprocessed := [2, 3, 4] },
       [Ev.on_data_call 5 2]) ∧
    want_more_impl 1 empty_oracle (process_data 1 bp_oracle conn_mid_body (List.range 5)).2.1 =
      process_data 1 empty_oracle
        (process_data 1 bp_oracle conn_mid_body (List.range 5)).2.1 [2, 3, 4] := by
  refine ⟨by decide, ?_, ?_⟩
  · rw [C5_backpressure.1 0 bp_oracle conn_mid_body (List.range 5) ⟨false, 2⟩ empty_oracle
      rfl rfl rfl (by decide) rfl (by decide)]
    decide
  · have h := C5_backpressure.2.1 1 empty_oracle
      (process_data 1 bp_oracle conn_mid_body (List.range 5)).2.1 (by decide)
    rw [h]
    have hu : (process_data 1 bp_oracle conn_mid_body (List.range 5)).2.1.m_unprocessed
        = [2, 3, 4] := by decide
    rw [hu]

/-- The state `conn_mid_body` with the process-wide `safe_mode` flag set. -/
def conn_mid_body_safe : Conn := { conn_mid_body with safe_mode := true }

/-- Oracle whose single scripted `on_data` call throws. -/
def throw_oracle : Oracle := ⟨[], [⟨true, 0⟩], [], []⟩

/-- Claim C6: the `SAFE_CALL` boundary.  With `safe_mode` unset a throwing
handler call propagates uncaught (the enclosing member function performs
nothing further).  With `safe_mode` set, a throw is caught at the boundary:
the originating call site is logged, the access status becomes 598, the
access log is emitted, and the site-selected recovery runs —
`SAFE_SEND_NONE` swallows and continues, `SAFE_SEND_ERROR` shuts the socket
down, decrements the active counter and drops the handler.  A call that
does not throw passes through untouched.  The final conjunct instantiates
the boundary at the `on_data` call site inside `process_data`. -/
theorem C6_safe_mode_containment :
    (∀ (c : Conn) (site : String) (rec : Recovery),
      c.safe_mode = false →
      safe_call_result c true site rec = (c, [Ev.propagated site], true)) ∧
    (∀ (c : Conn) (site : String),
      c.safe_mode = true →
      safe_call_result c true site Recovery.rec_none =
        ({ c with m_access_status := 598 },
         [Ev.error_log site] ++ print_access_log { c with m_access_status := 598 }, false)) ∧
    (∀ (c : Conn) (site : String),
      c.safe_mode = true →
      safe_call_result c true site Recovery.rec_send_error =
        ({ c with m_access_status := 598, m_has_handler := false },
         [Ev.error_log site] ++ print_access_log { c with m_access_status := 598 } ++
           [Ev.shutdown, Ev.dec_active], true)) ∧
    (∀ (c : Conn) (site : String) (rec : Recovery),
      safe_call_result c false site rec = (c, [], false)) ∧
    (∀ (fuel : Nat) (o : Oracle) (c : Conn) (input : List Nat) (d : DataStep) (o2 : Oracle),
      c.safe_mode = true →
      c.m_state.read_headers = false →
      c.m_state.read_data = true →
      c.m_has_handler = true →
      pop_data o = (d, o2) →
      d.threw = true →
      min c.m_content_length input.length ≠ 0 →
      process_data (fuel + 1) o c input =
        (o2, { c with m_access_status := 598, m_has_handler := false },
         [Ev.on_data_call (min c.m_content_length input.length) 0,
          Ev.error_log "connection::process_data -> on_data"] ++
           print_access_log { c with m_access_status := 598 } ++
           [Ev.shutdown, Ev.dec_active])) := by
  refine ⟨?_, ?_, ?_, ?_, ?_⟩
  · intro c site rec h
    simp [safe_call_result, h]
  · intro c site h
    simp [safe_call_result, h]
  · intro c site h
    simp [safe_call_result, h]
  · intro c site rec
    simp [safe_call_result]
  · intro fuel o c input d o2 hs h1 h2 h3 h4 h5 h6
    simp [process_data, safe_call_result, h1, h2, h3, h4, h5, h6, hs]

/-- Witness for C6: without `safe_mode` the throw propagates on
`idle_conn`; with `safe_mode` on `conn_mid_body_safe` a throwing `on_data`
yields status 598, one access-log line, a shutdown and the dropped
handler. -/
theorem C6_safe_mode_containment_witness :
    safe_call_result idle_conn true "site" Recovery.rec_none =
      (idle_conn, [Ev.propagated "site"], true) ∧
    process_data 1 throw_oracle conn_mid_body_safe (List.range 5) =
      (empty_oracle,
       { conn_mid_body_safe with m_access_status := 598, m_has_handler := false },
       [Ev.on_data_call 5 0, Ev.error_log "connection::process_data -> on_data",
        Ev.access_log 598 30 20, Ev.shutdown, Ev.dec_active]) := by
  constructor
  · exact C6_safe_mode_containment.1 idle_conn "site" Recovery.rec_none rfl
  · rw [C6_safe_mode_containment.2.2.2.2 0 throw_oracle conn_mid_body_safe (List.range 5)
      ⟨true, 0⟩ empty_oracle rfl rfl rfl rfl (by decide) rfl (by decide)]
    decide

/-- Claim C3: a write completion reporting an error flushes the whole
outbound queue — every queued completion callback is invoked with the
error — sets the access status to 499, delivers `on_close` with the error
to the attached handler, decrements the active counter, shuts the socket
down and leaves the queue empty and the handler dropped.  (Stated for a
handler whose `on_close` does not itself throw.) -/
theorem C3_write_error_flushes_and_closes :
    ∀ (fuel : Nat) (o : Oracle) (c : Conn) (bytes : Nat),
      c.m_has_handler = true →
      (pop_close_throw o).1 = false →
      (∀ cb : Cb, some cb ∈ c.m_outgoing.map BufferInfo.handler →
          Ev.cb_invoked cb true ∈ (write_finished fuel o c true bytes).2.2) ∧
      (write_finished fuel o c true bytes).2.1.m_access_status = 499 ∧
      Ev.on_close_call true ∈ (write_finished fuel o c true bytes).2.2 ∧
      Ev.dec_active ∈ (write_finished fuel o c true bytes).2.2 ∧
      Ev.shutdown ∈ (write_finished fuel o c true bytes).2.2 ∧
      (write_finished fuel o c true bytes).2.1.m_outgoing = [] ∧
      (write_finished fuel o c true bytes).2.1.m_has_handler = false := by
  intro fuel o c bytes h1 h2
  have hscr : ∀ (c2 : Conn) (site : String),
      safe_call_result c2 false site Recovery.rec_none = (c2, [], false) := by
    intro c2 site
    simp [safe_call_result]
  refine ⟨?_, ?_, ?_, ?_, ?_, ?_, ?_⟩
  · intro cb hcb
    rcases List.mem_map.mp hcb with ⟨info, hinfo, hh⟩
    simp [write_finished, h1, h2, hscr, close_impl]
    left
    exact ⟨info, hinfo, hh⟩
  · simp [write_finished, h1, h2, hscr, close_impl]
  · simp [write_finished, h1, h2, hscr, close_impl]
  · simp [write_finished, h1, h2, hscr, close_impl]
  · simp [write_finished, h1, h2, hscr, close_impl]
  · simp [write_finished, h1, h2, hscr, close_impl]
  · simp [write_finished, h1, h2, hscr, close_impl]

lemma async_read_received (c : Conn) : (async_read c).1.m_access_received = c.m_access_received := by
  unfold async_read
  split_ifs <;> rfl

lemma async_read_state (c : Conn) : (async_read c).1.m_state = c.m_state := by
  unfold async_read
  split_ifs <;> rfl

lemma async_read_hb (c : Conn) : header_bytes (async_read c).2 = 0 := by
  unfold async_read
  split_ifs <;> simp [header_bytes, ev_parse_bytes]

lemma async_read_bc (c : Conn) : body_counted (async_read c).2 = 0 := by
  unfold async_read
  split_ifs <;> simp [body_counted, ev_counted_bytes]

lemma send_error_received (c : Conn) (s : Nat) :
    (send_error c s).1.m_access_received = c.m_access_received := by
  unfold send_error send_headers send_impl send_nolock
  dsimp only
  split_ifs <;> rfl

lemma send_error_state (c : Conn) (s : Nat) : (send_error c s).1.m_state = c.m_state := by
  unfold send_error send_headers send_impl send_nolock
  dsimp only
  split_ifs <;> rfl

lemma send_error_hb (c : Conn) (s : Nat) : header_bytes (send_error c s).2 = 0 := by
  unfold send_error send_headers send_impl send_nolock
  dsimp only
  split_ifs <;> simp [header_bytes, ev_parse_bytes]

lemma send_error_bc (c : Conn) (s : Nat) : body_counted (send_error c s).2 = 0 := by
  unfold send_error send_headers send_impl send_nolock
  dsimp only
  split_ifs <;> simp [body_counted, ev_counted_bytes]

lemma safe_call_received (c : Conn) (t : Bool) (s : String) (r : Recovery) :
    (safe_call_result c t s r).1.m_access_received = c.m_access_received := by
  cases r <;> unfold safe_call_result <;> split_ifs <;> rfl

lemma safe_call_state (c : Conn) (t : Bool) (s : String) (r : Recovery) :
    (safe_call_result c t s r).1.m_state = c.m_state := by
  cases r <;> unfold safe_call_result <;> split_ifs <;> rfl

lemma safe_call_hb (c : Conn) (t : Bool) (s : String) (r : Recovery) :
    header_bytes (safe_call_result c t s r).2.1 = 0 := by
  cases r <;> unfold safe_call_result print_access_log <;> dsimp only <;> split_ifs <;>
    simp [header_bytes, ev_parse_bytes]

lemma safe_call_bc (c : Conn) (t : Bool) (s : String) (r : Recovery) :
    body_counted (safe_call_result c t s r).2.1 = 0 := by
  cases r <;> unfold safe_call_result print_access_log <;> dsimp only <;> split_ifs <;>
    simp [body_counted, ev_counted_bytes]

lemma header_bytes_nil : header_bytes [] = 0 := rfl

lemma header_bytes_cons (e : Ev) (l : List Ev) :
    header_bytes (e :: l) = ev_parse_bytes e + header_bytes l := by
  simp [header_bytes]

lemma header_bytes_append (a b : List Ev) :
    header_bytes (a ++ b) = header_bytes a + header_bytes b := by
  simp [header_bytes]

lemma body_counted_nil : body_counted [] = 0 := rfl

lemma body_counted_cons (e : Ev) (l : List Ev) :
    body_counted (e :: l) = ev_counted_bytes e + body_counted l := by
  simp [body_counted]

lemma body_counted_append (a b : List Ev) :
    body_counted (a ++ b) = body_counted a + body_counted b := by
  simp [body_counted]

lemma process_data_after_k_received (recur : ProcessK) (o : Oracle) (c : Conn)
    (input : List Nat) (dfb k : Nat) (h : c.m_state.request_processed = false) :
    (process_data_after_k recur o c input dfb k).2.1.m_access_received =
      c.m_access_received + k := by
  unfold process_data_after_k
  dsimp only
  split_ifs with h1 h2 h3 h4 h5 h6
  · rfl
  · exact async_read_received _
  · simp [safe_call_received]
  · rw [safe_call_state] at h5
    simp [h] at h5
  · simp [safe_call_received]
  · simp [h] at h6
  · rfl

lemma process_data_after_k_hb (recur : ProcessK) (o : Oracle) (c : Conn)
    (input : List Nat) (dfb k : Nat) (h : c.m_state.request_processed = false) :
    header_bytes (process_data_after_k recur o c input dfb k).2.2 = 0 := by
  unfold process_data_after_k
  dsimp only
  split_ifs with h1 h2 h3 h4 h5 h6
  · rfl
  · exact async_read_hb _
  · simp [header_bytes_cons, header_bytes_nil, header_bytes_append, safe_call_hb,
      ev_parse_bytes]
  · rw [safe_call_state] at h5
    simp [h] at h5
  · simp [header_bytes_cons, header_bytes_nil, header_bytes_append, safe_call_hb,
      ev_parse_bytes]
  · simp [h] at h6
  · rfl

lemma process_data_after_k_bc (recur : ProcessK) (o : Oracle) (c : Conn)
    (input : List Nat) (dfb k : Nat) (h : c.m_state.request_processed = false) :
    body_counted (process_data_after_k recur o c input dfb k).2.2 = 0 := by
  unfold process_data_after_k
  dsimp only
  split_ifs with h1 h2 h3 h4 h5 h6
  · rfl
  · exact async_read_bc _
  · simp [body_counted_cons, body_counted_nil, body_counted_append, safe_call_bc,
      ev_counted_bytes]
  · rw [safe_call_state] at h5
    simp [h] at h5
  · simp [body_counted_cons, body_counted_nil, body_counted_append, safe_call_bc,
      ev_counted_bytes]
  · simp [h] at h6
  · rfl

/-- Claim C7 (amended): over any `process_data` run that stays within one
request (`request_processed` unset, so the run never resets the accounting
for a next request), the bytes-received counter advances by exactly the
header bytes the parser consumed plus the body bytes counted as processed —
the handler-acknowledged count where a handler was offered bytes, and the
full offered slice where the body is drained without a handler.  Together
with `print_access_log` reporting `m_access_received`, the reported total
is headers parsed plus body counted.  (The original claim, with only
handler-acknowledged bytes, fails on handlerless drains — see the
counterexample.) -/
theorem C7_received_accounting :
    ∀ (fuel : Nat) (o : Oracle) (c : Conn) (input : List Nat),
      c.m_state.request_processed = false →
      (process_data fuel o c input).2.1.m_access_received =
        c.m_access_received + header_bytes (process_data fuel o c input).2.2 +
          body_counted (process_data fuel o c input).2.2 := by
  intro fuel
  induction fuel with
  | zero =>
    intro o c input h
    simp [process_data, header_bytes_nil, body_counted_nil]
  | succ f ih =>
    intro o c input h
    by_cases h1 : c.m_state.read_headers
    · rcases hpp : pop_parse o with ⟨p, o2⟩
      cases hres : p.result with
      | t =>
        by_cases hf : p.factory
        · rcases hph : pop_header_throw o2 with ⟨thr, o3⟩
          cases thr
          · simp [process_data, h1, hpp, hres, hf, hph, safe_call_result,
              header_bytes_cons, header_bytes_append, header_bytes_nil,
              body_counted_cons, body_counted_append, body_counted_nil,
              ev_parse_bytes, ev_counted_bytes]
            split_ifs <;> (rw [ih _ _ _ (by simp [h])]; simp [header_bytes_cons, header_bytes_append, header_bytes_nil, body_counted_cons, body_counted_append, body_counted_nil, ev_parse_bytes, ev_counted_bytes]; try omega)
          · by_cases hs : c.safe_mode
            · simp [process_data, h1, hpp, hres, hf, hph, safe_call_result, hs,
                print_access_log, header_bytes_cons, header_bytes_append, header_bytes_nil,
                body_counted_cons, body_counted_append, body_counted_nil,
                ev_parse_bytes, ev_counted_bytes]
              split_ifs <;> simp_all [header_bytes_cons, header_bytes_append,
                header_bytes_nil, body_counted_cons, body_counted_append, body_counted_nil,
                ev_parse_bytes, ev_counted_bytes] <;> try omega
            · simp [process_data, h1, hpp, hres, hf, hph, safe_call_result, hs,
                header_bytes_cons, header_bytes_append, header_bytes_nil,
                body_counted_cons, body_counted_append, body_counted_nil,
                ev_parse_bytes, ev_counted_bytes]
              split_ifs <;> simp_all [header_bytes_cons, header_bytes_append,
                header_bytes_nil, body_counted_cons, body_counted_append, body_counted_nil,
                ev_parse_bytes, ev_counted_bytes] <;> try omega
        · simp [process_data, h1, hpp, hres, hf,
            header_bytes_cons, header_bytes_append, header_bytes_nil,
            body_counted_cons, body_counted_append, body_counted_nil,
            ev_parse_bytes, ev_counted_bytes, send_error_received, send_error_state,
            send_error_hb, send_error_bc]
          split_ifs <;> (rw [ih _ _ _ (by simp [send_error_state, h])]; simp [send_error_received, send_error_state, send_error_hb, send_error_bc, header_bytes_cons, header_bytes_append, header_bytes_nil, body_counted_cons, body_counted_append, body_counted_nil, ev_parse_bytes, ev_counted_bytes]; try omega)
      | f =>
        simp [process_data, h1, hpp, hres, send_error_received, send_error_hb, send_error_bc,
          header_bytes_cons, header_bytes_append, header_bytes_nil,
          body_counted_cons, body_counted_append, body_counted_nil,
          ev_parse_bytes, ev_counted_bytes]
        split_ifs <;> simp [send_error_received, send_error_hb, send_error_bc,
          header_bytes_cons, header_bytes_append, header_bytes_nil,
          body_counted_cons, body_counted_append, body_counted_nil,
          ev_parse_bytes, ev_counted_bytes] <;> try omega
      | indeterminate =>
        simp [process_data, h1, hpp, hres, async_read_received, async_read_hb, async_read_bc,
          header_bytes_cons, header_bytes_append, header_bytes_nil,
          body_counted_cons, body_counted_append, body_counted_nil,
          ev_parse_bytes, ev_counted_bytes]
        split_ifs <;> simp [async_read_received, async_read_hb, async_read_bc,
          header_bytes_cons, header_bytes_append, header_bytes_nil,
          body_counted_cons, body_counted_append, body_counted_nil,
          ev_parse_bytes, ev_counted_bytes] <;> try omega
    · by_cases h3 : c.m_state.read_data
      · rcases hpd : pop_data o with ⟨d, o4⟩
        cases hthrew : d.threw
        · simp [process_data, h1, h3, hpd, hthrew,
            process_data_after_k_received, process_data_after_k_hb,
            process_data_after_k_bc, h,
            header_bytes_cons, header_bytes_append, header_bytes_nil,
            body_counted_cons, body_counted_append, body_counted_nil,
            ev_parse_bytes, ev_counted_bytes]
          split_ifs <;> (simp [process_data_after_k_received, process_data_after_k_hb, process_data_after_k_bc, h, header_bytes_cons, header_bytes_append, header_bytes_nil, body_counted_cons, body_counted_append, body_counted_nil, ev_parse_bytes, ev_counted_bytes]; try omega)
        · by_cases hs : c.safe_mode
          · simp [process_data, h1, h3, hpd, hthrew, safe_call_result, hs,
              print_access_log, safe_call_received, safe_call_hb, safe_call_bc,
              process_data_after_k_received, process_data_after_k_hb,
              process_data_after_k_bc, h,
              header_bytes_cons, header_bytes_append, header_bytes_nil,
              body_counted_cons, body_counted_append, body_counted_nil,
              ev_parse_bytes, ev_counted_bytes]
            split_ifs <;> simp_all [process_data_after_k_received, process_data_after_k_hb,
              process_data_after_k_bc,
              header_bytes_cons, header_bytes_append, header_bytes_nil,
              body_counted_cons, body_counted_append, body_counted_nil,
              ev_parse_bytes, ev_counted_bytes] <;> try omega
          · simp [process_data, h1, h3, hpd, hthrew, safe_call_result, hs,
              process_data_after_k_received, process_data_after_k_hb,
              process_data_after_k_bc, h,
              header_bytes_cons, header_bytes_append, header_bytes_nil,
              body_counted_cons, body_counted_append, body_counted_nil,
              ev_parse_bytes, ev_counted_bytes]
            split_ifs <;> simp_all [process_data_after_k_received, process_data_after_k_hb,
              process_data_after_k_bc,
              header_bytes_cons, header_bytes_append, header_bytes_nil,
              body_counted_cons, body_counted_append, body_counted_nil,
              ev_parse_bytes, ev_counted_bytes] <;> try omega
      · simp [process_data, h1, h3, header_bytes_nil, body_counted_nil]

/-- Witness for C7: a run in which the handler acknowledges 2 of 5 offered
bytes advances the received counter by exactly those 2 bytes. -/
theorem C7_received_accounting_witness :
    conn_mid_body.m_state.request_processed = false ∧
    (process_data 1 bp_oracle conn_mid_body (List.range 5)).2.1.m_access_received =
      conn_mid_body.m_access_received +
        header_bytes (process_data 1 bp_oracle conn_mid_body (List.range 5)).2.2 +
        body_counted (process_data 1 bp_oracle conn_mid_body (List.range 5)).2.2 :=
  ⟨by decide, C7_received_accounting 1 bp_oracle conn_mid_body (List.range 5) (by decide)⟩

/-- Oracle for a request whose 30 header bytes parse completely, carrying
`Content-Length: 5` and keep-alive, but for which the factory lookup finds
no handler factory. -/
def miss_oracle : Oracle :=
  ⟨[⟨Tribool.t, 30, some 5, true, "GET", "/missing", false⟩], [], [], []⟩

/-- The factory-miss trace: 35 bytes (30 header + 5 body) arrive at a fresh
connection, the 404 write completes (its one abstract byte accepted), and
the bound `close_impl` completion fires with no error. -/
def miss_run1 : Oracle × Conn × List Ev := process_data 3 miss_oracle idle_conn (List.range 35)

def miss_run2 : Oracle × Conn × List Ev := write_finished 1 miss_run1.1 miss_run1.2.1 false 1

def miss_run3 : Oracle × Conn × List Ev := close_impl 1 miss_run2.1 miss_run2.2.1 false

def miss_trace : List Ev := miss_run1.2.2 ++ miss_run2.2.2 ++ miss_run3.2.2

/-- Counterexample to claim C7 as stated: in the factory-miss trace the
emitted access-log line reports 35 bytes received, yet the parser consumed
30 header bytes and no handler ever acknowledged any body byte (no handler
exists), so headers-parsed plus handler-acknowledged is 30, not 35 — the 5
body bytes were drained silently and still counted. -/
theorem C7_handlerless_drain_counted :
    Ev.access_log 404 35 1 ∈ miss_trace ∧
    header_bytes miss_trace = 30 ∧
    body_acked miss_trace = 0 := by
  decide


lemma sub_size_le (a b : Nat) (hb : b ≤ a) (ha : a < size_w) : sub_size a b = a - b := by
  have hw : size_w = 18446744073709551616 := by norm_num [size_w]
  simp only [sub_size, hw] at *
  omega

/-- Claim C1 (amended): on a complete parse whose factory lookup finds no
handler factory, the connection sends the stock 404 (so the access status
is 404 and the reply — carrying the Keep-Alive header exactly when the
request was keep-alive — is queued with `close_impl` bound as completion),
but it does NOT transition as for a bad request: `keep_alive` keeps the
value taken from the request (it is not forced off), the state moves to
`read_data` and the body is drained without a handler, and no shutdown is
issued by this step.  When the 404 write later completes, `close_impl`
closes the socket only if the request was not keep-alive; a keep-alive
request gets the socket reused for the next request instead.  (Stated for
a request arriving at the start of a fresh exchange: headers fill the
buffer, body still outstanding, no write or read in flight.) -/
theorem C1_factory_miss_behavior :
    (∀ (fuel : Nat) (o : Oracle) (c : Conn) (input : List Nat) (p : ParseStep) (o2 : Oracle),
      c.m_state.read_headers = true →
      c.m_state.waiting_for_first_data = true →
      c.m_has_handler = false →
      c.m_sending = false →
      c.m_at_read = false →
      pop_parse o = (p, o2) →
      p.result = Tribool.t →
      p.factory = false →
      p.consumed = input.length →
      0 < p.req_content_length.getD 0 →
      p.req_content_length.getD 0 < size_w →
      (process_data (fuel + 2) o c input).2.1.m_access_status = 404 ∧
      (process_data (fuel + 2) o c input).2.1.m_keep_alive = p.req_keep_alive ∧
      (process_data (fuel + 2) o c input).2.1.m_state.read_data = true ∧
      (process_data (fuel + 2) o c input).2.1.m_state.read_headers = false ∧
      Ev.shutdown ∉ (process_data (fuel + 2) o c input).2.2 ∧
      (process_data (fuel + 2) o c input).2.1.m_outgoing =
        c.m_outgoing ++ [⟨to_buffers ⟨404, p.req_keep_alive⟩ [], some Cb.close_conn⟩]) ∧
    (∀ (fuel : Nat) (o : Oracle) (c : Conn),
      c.m_state = processing_request →
      c.m_has_handler = false →
      c.m_unprocessed = [] →
      (c.m_keep_alive = false →
        close_impl fuel o c false = (o, c, print_access_log c ++ [Ev.shutdown])) ∧
      (c.m_keep_alive = true → c.m_at_read = false →
        Ev.shutdown ∉ (close_impl fuel o c false).2.2 ∧
        Ev.async_read_posted ∈ (close_impl fuel o c false).2.2 ∧
        (close_impl fuel o c false).2.1.m_state = ⟨true, false, false, true⟩)) := by
  constructor
  · intro fuel o c input p o2 h1 hw h2 hsend har hpp hres hf hcons hlen hlt
    have hmin : min p.consumed input.length = input.length := by omega
    have hdrop : input.drop (min p.consumed input.length) = [] := by
      rw [hmin]
      simp
    have hsub : sub_size (p.req_content_length.getD 0) 0 = p.req_content_length.getD 0 := by
      rw [sub_size_le _ _ (Nat.zero_le _) hlt]
      omega
    have hne : p.req_content_length.getD 0 ≠ 0 := by omega
    by_cases hka : p.req_keep_alive
    · simp [process_data, process_data_after_k, h1, hw, h2, hsend, har, hpp, hres, hf,
        hdrop, hsub, hne, hlen, hka, send_error, send_headers, send_impl, send_nolock,
        stock_reply, async_read]
    · simp [process_data, process_data_after_k, h1, hw, h2, hsend, har, hpp, hres, hf,
        hdrop, hsub, hne, hlen, hka, send_error, send_headers, send_impl, send_nolock,
        stock_reply, async_read]
  · intro fuel o c hst hh hu
    obtain ⟨st, cl, snd, ka, ar, hhf, ast, arcv, asnt, am, au, un, og, sm, hsv⟩ := c
    constructor
    · intro hka
      simp_all [close_impl, processing_request, print_access_log]
    · intro hka har
      simp_all [close_impl, process_next, process_next_k, async_read, print_access_log,
        processing_request]

/-- Counterexample to claim C1 as stated: for the keep-alive request in the
factory-miss trace, `keep_alive` remains `true` (the claim says it is
forced to `false`), no shutdown ever occurs in the whole trace — parse,
404 write completion, bound `close_impl` — and after the 404 write
completes the connection instead posts a read for the next request with a
fully reset state, i.e. the socket is reused, not closed. -/
theorem C1_keep_alive_not_forced :
    miss_run1.2.1.m_keep_alive = true ∧
    Ev.shutdown ∉ miss_trace ∧
    Ev.async_read_posted ∈ miss_run3.2.2 ∧
    miss_run3.2.1.m_state = ⟨true, false, false, true⟩ := by
  decide

/-- A connection that has finished processing a non-keep-alive request
(state `processing_request`) with the 404 write completed. -/
def conn_404_done : Conn :=
  { idle_conn with
    m_state := processing_request, m_access_status := 404,
    m_access_received := 30, m_access_sent := 1 }

/-- Witness for C1: a keep-alive factory-miss request whose 30 header bytes
fill the read exactly ends with status 404, `keep_alive` still `true`, in
`read_data` state; and on a non-keep-alive connection the bound completion
shuts the socket down. -/
theorem C1_factory_miss_behavior_witness :
    (process_data 2 miss_oracle idle_conn (List.range 30)).2.1.m_access_status = 404 ∧
    (process_data 2 miss_oracle idle_conn (List.range 30)).2.1.m_keep_alive = true ∧
    (process_data 2 miss_oracle idle_conn (List.range 30)).2.1.m_state.read_data = true ∧
    close_impl 1 empty_oracle conn_404_done false =
      (empty_oracle, conn_404_done, print_access_log conn_404_done ++ [Ev.shutdown]) := by
  have h1 := C1_factory_miss_behavior.1 0 miss_oracle idle_conn (List.range 30)
    ⟨Tribool.t, 30, some 5, true, "GET", "/missing", false⟩ ⟨[], [], [], []⟩
    rfl rfl rfl rfl rfl (by decide) rfl rfl (by decide) (by decide) (by decide)
  exact ⟨h1.1, h1.2.1, h1.2.2.1,
    (C1_factory_miss_behavior.2 1 empty_oracle conn_404_done rfl rfl rfl).1 rfl⟩

/-- Claim C2 (amended): a handler `close` with no error before the body is
fully delivered makes `close_impl` set `request_processed`, drop the
handler, and continue reading (re-posting a read when nothing is parked)
with no shutdown and no log line; once the remaining body bytes have been
delivered to the silent sink (no handler, so no `on_data` call is made),
the next request is started unconditionally — the access log is emitted
once, the state resets to `read_headers | waiting_for_first_data` and a
read is posted for the next request even when `keep_alive` is false (the
socket is reused, not shut down, regardless of `keep_alive`; the original
claim expected a shutdown in the non-keep-alive case — see the
counterexample). -/
theorem C2_drain_before_reuse :
    (∀ (fuel : Nat) (o : Oracle) (c : Conn),
      c.m_state.read_data = true →
      c.m_unprocessed = [] →
      (close_impl fuel o c false).2.1.m_state.request_processed = true ∧
      (close_impl fuel o c false).2.1.m_has_handler = false ∧
      Ev.shutdown ∉ (close_impl fuel o c false).2.2 ∧
      log_count (close_impl fuel o c false).2.2 = 0 ∧
      (c.m_at_read = false → Ev.async_read_posted ∈ (close_impl fuel o c false).2.2)) ∧
    (∀ (fuel : Nat) (o : Oracle) (c : Conn) (input : List Nat),
      c.m_state = ⟨false, true, true, false⟩ →
      c.m_has_handler = false →
      0 < c.m_content_length →
      c.m_content_length = input.length →
      c.m_content_length < size_w →
      c.m_at_read = false →
      (process_data (fuel + 1) o c input).2.1.m_state = ⟨true, false, false, true⟩ ∧
      Ev.shutdown ∉ (process_data (fuel + 1) o c input).2.2 ∧
      log_count (process_data (fuel + 1) o c input).2.2 = 1 ∧
      Ev.async_read_posted ∈ (process_data (fuel + 1) o c input).2.2 ∧
      (∀ off ack : Nat, Ev.on_data_call off ack ∉ (process_data (fuel + 1) o c input).2.2)) := by
  constructor
  · intro fuel o c hrd hu
    have hne : c.m_state ≠ processing_request := by
      intro he
      rw [he] at hrd
      simp [processing_request] at hrd
    simp [close_impl, async_read, hne, hu, log_count, is_access_log]
    split_ifs with h <;> simp [is_access_log, h]
  · intro fuel o c input hst hh hpos hlen hlt har
    have hmin : min c.m_content_length input.length = input.length := by omega
    have hsub : sub_size input.length input.length = 0 := by
      rw [hlen] at hlt
      rw [sub_size_le _ _ (Nat.le_refl _) hlt]
      omega
    have hdrop : input.drop input.length = [] := by simp
    simp [process_data, process_data_after_k, process_next_k, async_read,
      print_access_log, hst, hh, hmin, hsub, hdrop, log_count, is_access_log,
      Nat.ne_of_gt hpos, hlen, har]

/-- The early-close drain trace on the non-keep-alive `conn_mid_body`: the
handler calls `close` with no error while 5 body bytes are outstanding
(dispatched `close_impl`), then the posted read delivers those 5 bytes. -/
def drain_run1 : Oracle × Conn × List Ev := close_impl 1 empty_oracle conn_mid_body false

def drain_run2 : Oracle × Conn × List Ev :=
  handle_read 1 drain_run1.1 drain_run1.2.1 false (List.range 5)

/-- Counterexample to claim C2 as stated ("... or the socket shut down
(when keep_alive is false)"): `conn_mid_body` is not keep-alive, yet after
the handler closes early and the remaining body is drained, no shutdown
occurs anywhere in the trace; instead the state resets for a next request
and a fresh read is posted — the socket is reused. -/
theorem C2_no_shutdown_after_drain :
    conn_mid_body.m_keep_alive = false ∧
    Ev.shutdown ∉ drain_run1.2.2 ++ drain_run2.2.2 ∧
    drain_run2.2.1.m_state = ⟨true, false, false, true⟩ ∧
    Ev.async_read_posted ∈ drain_run2.2.2 := by
  decide

/-- A connection draining its body after an early handler close: handler
already dropped, `request_processed` set, 5 body bytes outstanding. -/
def conn_draining : Conn :=
  { conn_mid_body with
    m_state := ⟨false, true, true, false⟩, m_has_handler := false, m_at_read := false }

/-- Witness for C2: on `conn_mid_body` the early close sets
`request_processed` and drops the handler without shutdown; on
`conn_draining` the 5 arriving bytes finish the drain, log once, reset the
state and post a read. -/
theorem C2_drain_before_reuse_witness :
    (close_impl 1 empty_oracle conn_mid_body false).2.1.m_state.request_processed = true ∧
    (close_impl 1 empty_oracle conn_mid_body false).2.1.m_has_handler = false ∧
    Ev.shutdown ∉ (close_impl 1 empty_oracle conn_mid_body false).2.2 ∧
    (process_data 1 empty_oracle conn_draining (List.range 5)).2.1.m_state =
      ⟨true, false, false, true⟩ ∧
    Ev.shutdown ∉ (process_data 1 empty_oracle conn_draining (List.range 5)).2.2 ∧
    log_count (process_data 1 empty_oracle conn_draining (List.range 5)).2.2 = 1 := by
  have h1 := C2_drain_before_reuse.1 1 empty_oracle conn_mid_body rfl rfl
  have h2 := C2_drain_before_reuse.2 0 empty_oracle conn_draining (List.range 5)
    rfl rfl (by decide) (by decide) (by decide) rfl
  exact ⟨h1.1, h1.2.1, h1.2.2.1, h2.1, h2.2.1, h2.2.2.1⟩

/-- A connection mid-response: handler attached, two items queued (one with
a user completion callback, one without), a write in flight. -/
def conn_writing : Conn :=
  { conn_mid_body with
    m_outgoing := [⟨[[1, 2], [3]], some (Cb.user 7)⟩, ⟨[[4]], none⟩], m_sending := true }

/-- Witness for C3: a failing write on `conn_writing` invokes the queued
user callback with the error, sets 499, notifies the handler, decrements
the counter, shuts down, and empties the queue. -/
theorem C3_write_error_flushes_and_closes_witness :
    Ev.cb_invoked (Cb.user 7) true ∈ (write_finished 1 empty_oracle conn_writing true 0).2.2 ∧
    (write_finished 1 empty_oracle conn_writing true 0).2.1.m_access_status = 499 ∧
    Ev.on_close_call true ∈ (write_finished 1 empty_oracle conn_writing true 0).2.2 ∧
    Ev.dec_active ∈ (write_finished 1 empty_oracle conn_writing true 0).2.2 ∧
    Ev.shutdown ∈ (write_finished 1 empty_oracle conn_writing true 0).2.2 ∧
    (write_finished 1 empty_oracle conn_writing true 0).2.1.m_outgoing = [] ∧
    (write_finished 1 empty_oracle conn_writing true 0).2.1.m_has_handler = false := by
  have h := C3_write_error_flushes_and_closes 1 empty_oracle conn_writing 0 rfl rfl
  exact ⟨h.1 (Cb.user 7) (by decide), h.2.1, h.2.2.1, h.2.2.2.1, h.2.2.2.2.1,
    h.2.2.2.2.2.1, h.2.2.2.2.2.2⟩

/-- Claim C4 (amended): the handler and the active-connections counter are
paired on every path except destruction.  (A) Creating the handler on a
factory hit increments the counter exactly once and leaves the handler
attached.  (B) `close_impl` decrements exactly once when a handler is
attached, never otherwise, and always leaves the handler dropped.  (C) A
read error with an attached handler decrements exactly once and drops the
handler.  (D) A write error likewise.  (E) The safe-mode recovery for a
throwing `on_data` decrements exactly once and drops the handler.  (F) The
exception the original claim misses: destruction with a live handler logs
status 597 and synthesizes `on_close`, but performs NO decrement of the
active-connections counter. -/
theorem C4_handler_counter_pairing :
    (∀ (fuel : Nat) (o : Oracle) (c : Conn) (input : List Nat) (p : ParseStep) (o2 o3 : Oracle),
      c.m_state.read_headers = true →
      c.m_state.waiting_for_first_data = true →
      c.m_has_handler = false →
      pop_parse o = (p, o2) →
      p.result = Tribool.t →
      p.factory = true →
      pop_header_throw o2 = (false, o3) →
      p.consumed = input.length →
      0 < p.req_content_length.getD 0 →
      p.req_content_length.getD 0 < size_w →
      inc_count (process_data (fuel + 2) o c input).2.2 = 1 ∧
      dec_count (process_data (fuel + 2) o c input).2.2 = 0 ∧
      (process_data (fuel + 2) o c input).2.1.m_has_handler = true) ∧
    (∀ (fuel : Nat) (o : Oracle) (c : Conn) (err : Bool),
      c.m_unprocessed = [] →
      dec_count (close_impl fuel o c err).2.2 = (if c.m_has_handler then 1 else 0) ∧
      (close_impl fuel o c err).2.1.m_has_handler = false) ∧
    (∀ (fuel : Nat) (o : Oracle) (c : Conn) (bytes : List Nat),
      c.m_has_handler = true →
      (pop_close_throw o).1 = false →
      dec_count (handle_read fuel o c true bytes).2.2 = 1 ∧
      (handle_read fuel o c true bytes).2.1.m_has_handler = false) ∧
    (∀ (fuel : Nat) (o : Oracle) (c : Conn) (bytes : Nat),
      c.m_has_handler = true →
      (pop_close_throw o).1 = false →
      dec_count (write_finished fuel o c true bytes).2.2 = 1 ∧
      (write_finished fuel o c true bytes).2.1.m_has_handler = false) ∧
    (∀ (fuel : Nat) (o : Oracle) (c : Conn) (input : List Nat) (d : DataStep) (o2 : Oracle),
      c.safe_mode = true →
      c.m_state.read_headers = false →
      c.m_state.read_data = true →
      c.m_has_handler = true →
      pop_data o = (d, o2) →
      d.threw = true →
      min c.m_content_length input.length ≠ 0 →
      dec_count (process_data (fuel + 1) o c input).2.2 = 1 ∧
      (process_data (fuel + 1) o c input).2.1.m_has_handler = false) ∧
    (∀ (o : Oracle) (c : Conn),
      c.m_has_handler = true →
      (pop_close_throw o).1 = false →
      dec_count (connection_destructor o c).2.2 = 0 ∧
      Ev.on_close_call false ∈ (connection_destructor o c).2.2) := by
  refine ⟨?_, ?_, ?_, ?_, ?_, ?_⟩
  · intro fuel o c input p o2 o3 h1 hw h2 hpp hres hf hph hcons hlen hlt
    have hdrop : input.drop (min p.consumed input.length) = [] := by
      have : min p.consumed input.length = input.length := by omega
      rw [this]
      simp
    have hsub : sub_size (p.req_content_length.getD 0) 0 = p.req_content_length.getD 0 := by
      rw [sub_size_le _ _ (Nat.zero_le _) hlt]
      omega
    simp [process_data, process_data_after_k, safe_call_result, async_read,
      h1, hw, h2, hpp, hres, hf, hph, hdrop, hsub, hlen,
      inc_count, dec_count, is_inc_active, is_dec_active]
    split_ifs <;> simp [is_inc_active, is_dec_active]
  · intro fuel o c err hu
    simp [close_impl, async_read, process_next, process_next_k, print_access_log, hu,
      dec_count, is_dec_active]
    split_ifs <;> simp [is_dec_active]
  · intro fuel o c bytes h1 h2
    have hscr : ∀ (c2 : Conn) (site : String),
        safe_call_result c2 false site Recovery.rec_none = (c2, [], false) := by
      intro c2 site
      simp [safe_call_result]
    simp [handle_read, print_access_log, h1, h2, hscr, dec_count, is_dec_active]
    all_goals split_ifs <;> simp [is_dec_active]
  · intro fuel o c bytes h1 h2
    have hscr : ∀ (c2 : Conn) (site : String),
        safe_call_result c2 false site Recovery.rec_none = (c2, [], false) := by
      intro c2 site
      simp [safe_call_result]
    simp [write_finished, close_impl, print_access_log, h1, h2, hscr,
      dec_count, is_dec_active]
    all_goals split_ifs
    all_goals simp [is_dec_active]
    all_goals (intro a x hx cb hcb ha; subst ha; rfl)
  · intro fuel o c input d o2 hs h1 h2 h3 h4 h5 h6
    simp [process_data, safe_call_result, print_access_log,
      hs, h1, h2, h3, h4, h5, h6, dec_count, is_dec_active]
    all_goals split_ifs <;> simp [is_dec_active]
  · intro o c h1 h2
    simp [connection_destructor, print_access_log, safe_call_result, h1, h2,
      dec_count, is_dec_active]
    all_goals split_ifs <;> simp [is_dec_active]

/-- Counterexample to claim C4 as stated ("every path that releases the
handler ... and Connection destruction with a live handler) decrements the
active-connections counter exactly once"): destroying `conn_mid_body`,
which still holds its handler, emits the 597 leak line and the synthesized
`on_close`, but performs zero decrements of the active-connections
counter — the increment made at handler creation is never paired on this
path. -/
theorem C4_destructor_skips_decrement :
    conn_mid_body.m_has_handler = true ∧
    dec_count (connection_destructor empty_oracle conn_mid_body).2.2 = 0 ∧
    Ev.on_close_call false ∈ (connection_destructor empty_oracle conn_mid_body).2.2 ∧
    Ev.access_log 597 30 20 ∈ (connection_destructor empty_oracle conn_mid_body).2.2 := by
  decide

/-- Oracle for a request whose factory lookup succeeds and whose
`on_headers` returns normally. -/
def hit_oracle : Oracle :=
  ⟨[⟨Tribool.t, 30, some 5, true, "POST", "/x", true⟩], [], [false], []⟩

/-- Witness for C4: handler creation increments once and attaches the
handler; `close_impl` on a handler-holding connection decrements once; the
destructor on the same connection decrements zero times. -/
theorem C4_handler_counter_pairing_witness :
    inc_count (process_data 2 hit_oracle idle_conn (List.range 30)).2.2 = 1 ∧
    (process_data 2 hit_oracle idle_conn (List.range 30)).2.1.m_has_handler = true ∧
    dec_count (close_impl 1 empty_oracle conn_mid_body false).2.2 =
      (if conn_mid_body.m_has_handler then 1 else 0) ∧
    dec_count (connection_destructor empty_oracle conn_mid_body).2.2 = 0 := by
  have hA := C4_handler_counter_pairing.1 0 hit_oracle idle_conn (List.range 30)
    ⟨Tribool.t, 30, some 5, true, "POST", "/x", true⟩ ⟨[], [], [false], []⟩ ⟨[], [], [], []⟩
    rfl rfl rfl (by decide) rfl rfl (by decide) (by decide) (by decide) (by decide)
  have hB := C4_handler_counter_pairing.2.1 1 empty_oracle conn_mid_body false rfl
  have hF := C4_handler_counter_pairing.2.2.2.2.2 empty_oracle conn_mid_body rfl rfl
  exact ⟨hA.1, hA.2.2, hB.1, hF.1⟩
